import Mathlib

/-!
Verification of the starvangaba fitness-tracking backend core.

The source is TypeScript; numbers are modelled as rationals (`ℚ`),
JavaScript `Math.round` as `⌊x + 1/2⌋` (round half toward +∞), and
`Number.prototype.toFixed(2)` followed by `parseFloat` as rounding to a
multiple of `1/100`.  Optional / possibly-missing JSON fields are modelled
with `Option`.  Mongoose documents are modelled as immutable records with
explicit functional update; collection state is a list of documents, and
`findOne` returns the first matching document in list order.
-/

namespace Starvangaba

/-- JavaScript `Math.round`: round half toward positive infinity. -/
def jsRound (x : ℚ) : ℤ := ⌊x + 1/2⌋

/-- JavaScript `parseFloat(x.toFixed(2))`: round to two decimal places. -/
def jsToFixed2 (x : ℚ) : ℚ := (jsRound (x * 100) : ℚ) / 100

/-- JavaScript truthiness choice `v ? v : d` for an optional numeric field
(`0` is falsy, as is an absent field). -/
def jsNumOr (v : Option ℚ) (d : ℚ) : ℚ :=
  match v with
  | some x => if x = 0 then d else x
  | none => d

/-- A GeoJSON-style coordinate pair `[first, second]` (the code compares and
offsets only indices 0 and 1 of each coordinate array). -/
abbrev Coord : Type := ℚ × ℚ

/-! ## sessionController.ts: distance/duration normalization in `stopSession` -/

/-- `stopSession` lines 429-439: pick the stored distance from the client's
`totalDistance` when it is a positive number, else the session's accumulated
`currentDistance` when positive, else the placeholder `0.001`; then, if the
resulting value is positive and below 100, treat it as kilometers and
multiply by 1000. -/
def finalDistanceOf (totalDistance : Option ℚ) (currentDistance : ℚ) : ℚ :=
  let base : ℚ :=
    match totalDistance with
    | some td => if 0 < td then td else if 0 < currentDistance then currentDistance else 1/1000
    | none => if 0 < currentDistance then currentDistance else 1/1000
  if 0 < base ∧ base < 100 then base * 1000 else base

/-- `stopSession` lines 442-446: the analogous duration fallback chain with
placeholder 1 second and no unit conversion. -/
def finalDurationOf (totalDuration : Option ℚ) (currentDuration : ℚ) : ℚ :=
  match totalDuration with
  | some td => if 0 < td then td else if 0 < currentDuration then currentDuration else 1
  | none => if 0 < currentDuration then currentDuration else 1

/-! ## sessionController.ts: route-geometry repair in `stopSession` -/

/-- `stopSession` lines 376-402: choose the initial route coordinate list.
A client route with at least two coordinates wins; else a location history
with at least two entries (mapped to its coordinate pairs); else a
synthesized two-point path from the session's current location and a small
offset of it.  An absent `locationHistory` is defaulted to a single
server-built entry, so only its length (1) matters below. -/
def initialRouteCoordinates (route : Option (List Coord))
    (locationHistory : Option (List Coord)) (currentLocation : Coord) :
    List Coord :=
  -- `processedHistory = locationHistory || [one server-built entry]`; an
  -- absent history therefore has length 1 and falls through to synthesis.
  let fromHistory : List Coord :=
    match locationHistory with
    | some h =>
      if 2 ≤ h.length then h
      else [currentLocation, (currentLocation.1 + 1/10000, currentLocation.2 + 1/10000)]
    | none => [currentLocation, (currentLocation.1 + 1/10000, currentLocation.2 + 1/10000)]
  match route with
  | some rc => if 2 ≤ rc.length then rc else fromHistory
  | none => fromHistory

/-- `stopSession` lines 407-415: the deduplication loop.  `last?` is the
most recently pushed coordinate (`lastCoord` in the source); a coordinate is
pushed only when one of its two components differs from it. -/
def collectDistinctCoords : Option Coord → List Coord → List Coord
  | _, [] => []
  | none, c :: rest => c :: collectDistinctCoords (some c) rest
  | some lc, c :: rest =>
    if c.1 ≠ lc.1 ∨ c.2 ≠ lc.2 then c :: collectDistinctCoords (some c) rest
    else collectDistinctCoords (some lc) rest

/-- `stopSession` lines 405-426: when the list has more than one entry,
deduplicate consecutive identical coordinates and, if fewer than two points
remain, append an epsilon offset of the sole remaining point (`distinctCoords[0]`). -/
def ensureDistinctCoords (l : List Coord) : List Coord :=
  if 1 < l.length then
    let d := collectDistinctCoords none l
    if d.length < 2 then d ++ [(d.headI.1 + 1/10000, d.headI.2 + 1/10000)]
    else d
  else l

/-- The full route geometry computed by `stopSession` for the new Activity. -/
def stopRouteCoordinates (route : Option (List Coord))
    (locationHistory : Option (List Coord)) (currentLocation : Coord) :
    List Coord :=
  ensureDistinctCoords (initialRouteCoordinates route locationHistory currentLocation)

/-! ## sessionController.ts: calorie and step estimation -/

/-- The profile fields of `req.user` used by the estimators; each is read
through JavaScript truthiness with defaults 70 kg / 170 cm / 30 y. -/
structure UserProfile where
  weight : Option ℚ
  height : Option ℚ
  age : Option ℚ

/-- `calculateCalories` (sessionController.ts lines 218-288).  The BMR value
is computed by the source but unused in the returned formula; the age
adjustment reproduces the source's `if (age > 50) ... else if (age > 65)`
chain, in which the second branch is unreachable. -/
def calculateCalories (durationSeconds : ℚ) (user : UserProfile)
    (distance : ℚ) (activityType : String) : ℤ :=
  let durationHours := durationSeconds / 3600
  let weightKg := jsNumOr user.weight 70
  let heightCm := jsNumOr user.height 170
  let age := jsNumOr user.age 30
  let _bmr := 88362/1000 + (13397/1000 * weightKg) + (4799/1000 * heightCm) - (5677/1000 * age)
  let met : ℚ :=
    if activityType = "run" then
      let speedKmh := distance / 1000 / durationHours
      if speedKmh < 8 then 6 else if speedKmh < 11 then 9
      else if speedKmh < 14 then 12 else 14
    else if activityType = "jog" then 7
    else if activityType = "walk" then
      let walkSpeedKmh := distance / 1000 / durationHours
      if walkSpeedKmh < 4 then 3 else if walkSpeedKmh < 6 then 4 else 5
    else if activityType = "cycling" then
      let cycleSpeedKmh := distance / 1000 / durationHours
      if cycleSpeedKmh < 16 then 5 else if cycleSpeedKmh < 22 then 7 else 10
    else if activityType = "hiking" then 6
    else 5
  let metAdjusted : ℚ :=
    if 50 < age then met * (95/100)
    else if 65 < age then met * (9/10)
    else met
  jsRound (metAdjusted * weightKg * durationHours)

/-- `calculateSteps` (sessionController.ts lines 291-328). -/
def calculateSteps (distanceMeters : ℚ) (user : UserProfile)
    (activityType : String) : ℤ :=
  let heightCm := jsNumOr user.height 170
  let strideLength : ℚ :=
    if activityType = "run" then heightCm * (45/100)
    else if activityType = "jog" then heightCm * (4/10)
    else if activityType = "walk" then heightCm * (415/1000)
    else if activityType = "hiking" then heightCm * (4/10)
    else heightCm * (415/1000)
  let strideLengthMeters := strideLength / 100
  jsRound (distanceMeters / strideLengthMeters)

/-! ## sessionController.ts: `startSession` and the active-session store -/

/-- A JSON array element: either a number or some non-numeric value
(`typeof x === 'number'` is false). -/
inductive JsVal where
  | num (q : ℚ)
  | nonNum
deriving DecidableEq

/-- One `ActiveSession` document. -/
structure ActiveSessionDoc where
  user : ℕ
  startTime : ℕ
  isActive : Bool
  currentLocation : Coord
  currentSpeed : ℚ
  currentDistance : ℚ
  currentDuration : ℚ
  currentElevation : Option ℚ
  currentHeartRate : Option ℚ
  lastUpdated : ℕ
deriving DecidableEq

/-- The in-place reset applied by `startSession` to an existing active
session (lines 73-83): overwrite `startTime`, set `currentLocation`, zero
the three accumulators, refresh `lastUpdated`; all other fields keep their
values. -/
def resetSessionDoc (s : ActiveSessionDoc) (now : ℕ) (loc : Coord) :
    ActiveSessionDoc :=
  { s with
    startTime := now
    currentLocation := loc
    currentSpeed := 0
    currentDistance := 0
    currentDuration := 0
    lastUpdated := now }

/-- `ActiveSession.findOne({user, isActive:true})` followed by `save()` of
the mutated document: replace the first active session of the user in
store order, or report `none` when the user has no active session. -/
def resetFirstActive (uid now : ℕ) (loc : Coord) :
    List ActiveSessionDoc → Option (List ActiveSessionDoc)
  | [] => none
  | s :: rest =>
    if s.user = uid ∧ s.isActive = true then
      some (resetSessionDoc s now loc :: rest)
    else
      match resetFirstActive uid now loc rest with
      | some rest2 => some (s :: rest2)
      | none => none

/-- Fresh session created by `startSession` when no active one exists
(lines 96-109). -/
def newSessionDoc (uid now : ℕ) (loc : Coord) : ActiveSessionDoc :=
  { user := uid
    startTime := now
    isActive := true
    currentLocation := loc
    currentSpeed := 0
    currentDistance := 0
    currentDuration := 0
    currentElevation := none
    currentHeartRate := none
    lastUpdated := now }

/-- Outcome of `startSession` as seen by the client. -/
inductive StartResponse where
  | invalidInput
  | resetOk
  | created
deriving DecidableEq

/-- `startSession` (sessionController.ts lines 16-129).  The request's
`initialLocation` is `none` when absent, `some none` when it has no
usable `coordinates` array, and `some (some l)` for an array `l`.
Validation requires exactly two numeric elements `[lng, lat]` within
bounds; then an existing active session is reset in place, else a new
session is appended. -/
def startSession (uid now : ℕ) (initialLocation : Option (Option (List JsVal)))
    (store : List ActiveSessionDoc) : StartResponse × List ActiveSessionDoc :=
  match initialLocation with
  | none => (.invalidInput, store)
  | some none => (.invalidInput, store)
  | some (some coords) =>
    match coords with
    | [JsVal.num lng, JsVal.num lat] =>
      if lat < -90 ∨ 90 < lat ∨ lng < -180 ∨ 180 < lng then (.invalidInput, store)
      else
        match resetFirstActive uid now (lng, lat) store with
        | some store2 => (.resetOk, store2)
        | none => (.created, store ++ [newSessionDoc uid now (lng, lat)])
    | _ => (.invalidInput, store)

/-- Number of active sessions the user holds in the store. -/
def countActive (uid : ℕ) (store : List ActiveSessionDoc) : ℕ :=
  (store.filter (fun s => s.user = uid ∧ s.isActive = true)).length

/-! ## challengeController.ts: challenge progress updates -/

/-- JavaScript truthiness choice `v ? v : d` for an optional string field
(the empty string is falsy). -/
def jsStrOr (v : Option String) (d : String) : String :=
  match v with
  | some s => if s = "" then d else s
  | none => d

/-- The Activity fields produced by `stopSession` and consumed by
`updateUserChallengeProgress`. -/
structure ActivityDoc where
  user : ℕ
  atype : String
  duration : ℚ
  distance : ℚ
  elevationGain : ℚ
  averageSpeed : ℚ
  maxSpeed : ℚ
  averagePace : ℚ
  calories : ℤ
  steps : ℤ
  route : List Coord
  simulated : Bool
deriving DecidableEq

/-- A participant entry embedded in a challenge. -/
structure ParticipantEntry where
  user : ℕ
  progress : ℚ
  completed : Bool
  completedDate : Option ℕ
deriving DecidableEq

/-- A challenge document (fields used by the progress updater). -/
structure ChallengeDoc where
  ctype : String
  goal : ℚ
  participants : List ParticipantEntry
deriving DecidableEq

/-- `updateUserChallengeProgress` lines 1634-1650: progress increment per
challenge type.  (`activity.elevationGain || 0` is the identity on the
numeric `elevationGain` field of a stored activity.) -/
def progressIncrement (challengeType : String) (activity : ActivityDoc) : ℚ :=
  if challengeType = "distance" then activity.distance / 1000
  else if challengeType = "time" then activity.duration
  else if challengeType = "elevation" then activity.elevationGain
  else if challengeType = "frequency" then 1
  else 0

/-- One iteration of the `updateUserChallengeProgress` loop (lines
1619-1663) on a single challenge.  In the source, `participant` is the very
object stored at `challenge.participants[participantIndex]`, so after lines
1657-1658 assign `progress` and `completed` through the array, the later
read `participant.completed` (line 1661) observes the freshly assigned
value; the embedding reads `p1.completed` accordingly. -/
def applyChallengeUpdate (userId : ℕ) (activity : ActivityDoc) (now : ℕ)
    (challenge : ChallengeDoc) : ChallengeDoc :=
  match challenge.participants.findIdx? (fun p => p.user = userId) with
  | none => challenge
  | some idx =>
    match challenge.participants[idx]? with
    | none => challenge
    | some p0 =>
      let newProgress := p0.progress + progressIncrement challenge.ctype activity
      let completed : Bool := challenge.goal ≤ newProgress
      let p1 := { p0 with progress := newProgress, completed := completed }
      let p2 :=
        if completed = true ∧ p1.completed = false then
          { p1 with completedDate := some now }
        else p1
      { challenge with participants := challenge.participants.set idx p2 }

/-- Per-challenge outcome of the updater loop. -/
inductive ChallengeOutcome where
  | skipped
  | saved (c : ChallengeDoc)
  | saveFailed (c : ChallengeDoc)
deriving DecidableEq

/-- What the loop does to one challenge: `continue` when the user is not in
the participants list, otherwise update and attempt `challenge.save()`,
whose failure is caught and logged (lines 1665-1675). -/
def challengeOutcomeOf (userId : ℕ) (activity : ActivityDoc) (now : ℕ)
    (saveResult : ChallengeDoc → Except String Unit) (c : ChallengeDoc) :
    ChallengeOutcome :=
  match c.participants.findIdx? (fun p => p.user = userId) with
  | none => ChallengeOutcome.skipped
  | some _ =>
    let c2 := applyChallengeUpdate userId activity now c
    match saveResult c2 with
    | Except.ok _ => ChallengeOutcome.saved c2
    | Except.error _ => ChallengeOutcome.saveFailed c2

/-- The `for (const challenge of userChallenges)` loop; each challenge is
processed regardless of what happened to the previous ones. -/
def processChallenges (userId : ℕ) (activity : ActivityDoc) (now : ℕ)
    (saveResult : ChallengeDoc → Except String Unit) :
    List ChallengeDoc → List ChallengeOutcome
  | [] => []
  | c :: rest =>
    challengeOutcomeOf userId activity now saveResult c ::
      processChallenges userId activity now saveResult rest

/-- `updateUserChallengeProgress` (lines 1602-1680).  `findResult` is the
outcome of the `Challenge.find` query and `saveResult` the outcome of each
`challenge.save()`.  The whole body sits in a `try/catch` that only logs, so
the function's returned promise always resolves (`Except.ok`). -/
def updateUserChallengeProgress (userId : ℕ) (activity : ActivityDoc)
    (now : ℕ) (findResult : Except String (List ChallengeDoc))
    (saveResult : ChallengeDoc → Except String Unit) :
    Except String Unit × List ChallengeOutcome :=
  match findResult with
  | Except.error _ => (Except.ok (), [])
  | Except.ok challenges =>
    (Except.ok (), processChallenges userId activity now saveResult challenges)

/-! ## sessionController.ts: the `stopSession` pipeline -/

/-- The request body fields read by `stopSession`. -/
structure StopRequest where
  locationHistory : Option (List Coord)
  totalDistance : Option ℚ
  totalDuration : Option ℚ
  route : Option (List Coord)
  activityType : Option String
  elevationGain : Option ℚ
  averageSpeed : Option ℚ
  maxSpeed : Option ℚ
  simulated : Bool

/-- The Activity document assembled by `stopSession` (lines 376-478).
`maxSpeed || session.currentSpeed || 0` collapses to
`maxSpeed || session.currentSpeed` because `|| 0` is the identity on a
numeric value. -/
def buildActivity (user : UserProfile) (uid : ℕ) (session : ActiveSessionDoc)
    (req : StopRequest) : ActivityDoc :=
  let routeCoordinates :=
    stopRouteCoordinates req.route req.locationHistory session.currentLocation
  let finalDistance := finalDistanceOf req.totalDistance session.currentDistance
  let finalDuration := finalDurationOf req.totalDuration session.currentDuration
  let activityTypeValue := jsStrOr req.activityType "run"
  { user := uid
    atype := activityTypeValue
    duration := finalDuration
    distance := finalDistance
    elevationGain := jsNumOr req.elevationGain 0
    averageSpeed := jsNumOr req.averageSpeed (finalDistance / (finalDuration / 3600))
    maxSpeed := jsNumOr req.maxSpeed session.currentSpeed
    averagePace := finalDuration / (finalDistance / 1000)
    calories := calculateCalories finalDuration user finalDistance activityTypeValue
    steps := calculateSteps finalDistance user activityTypeValue
    route := routeCoordinates
    simulated := req.simulated }

/-- Outcome of `stopSession` as seen by the client. -/
inductive StopResponse where
  | noActiveSession
  | serverError
  | completed (activity : ActivityDoc)
deriving DecidableEq

/-- `stopSession` (lines 331-518).  The store outcomes are oracles:
`activityCreate` for `Activity.create`, `userTotalUpdate` for the
`findByIdAndUpdate` of the user's total distance (its failure is caught and
ignored, lines 481-493), `sessionSave` for `session.save()` (line 497, not
guarded by an inner catch, so its failure surfaces as a server error), and
`challengeFind`/`challengeSave` for the challenge updater. -/
def stopSession (user : UserProfile) (uid : ℕ) (req : StopRequest)
    (session : Option ActiveSessionDoc)
    (activityCreate : Except String Unit)
    (userTotalUpdate : Except String Unit)
    (sessionSave : Except String Unit)
    (challengeFind : Except String (List ChallengeDoc))
    (challengeSave : ChallengeDoc → Except String Unit)
    (now : ℕ) : StopResponse :=
  match session with
  | none => StopResponse.noActiveSession
  | some s =>
    let activity := buildActivity user uid s req
    match activityCreate with
    | Except.error _ => StopResponse.serverError
    | Except.ok _ =>
      let _ := userTotalUpdate
      match sessionSave with
      | Except.error _ => StopResponse.serverError
      | Except.ok _ =>
        match (updateUserChallengeProgress uid activity now challengeFind
            challengeSave).1 with
        | Except.error _ => StopResponse.serverError
        | Except.ok _ => StopResponse.completed activity

/-! ## mapSocketServer.ts: the live fan-out layer -/

/-- In-memory tracking accumulators. -/
structure TrackingStats where
  distance : ℚ
  duration : ℚ
  speed : ℚ
deriving DecidableEq

/-- One entry of the in-memory `activeUsers` map. -/
structure LiveTrackingUser where
  userId : ℕ
  currentLocation : List JsVal
  startTime : ℕ
  trackingStats : TrackingStats
deriving DecidableEq

/-- `Map.prototype.set`: replace the entry for the key, else append. -/
def registrySet (uid : ℕ) (v : LiveTrackingUser) :
    List (ℕ × LiveTrackingUser) → List (ℕ × LiveTrackingUser)
  | [] => [(uid, v)]
  | (k, w) :: rest =>
    if k = uid then (uid, v) :: rest else (k, w) :: registrySet uid v rest

/-- `Map.prototype.get`. -/
def registryGet (uid : ℕ) :
    List (ℕ × LiveTrackingUser) → Option LiveTrackingUser
  | [] => none
  | (k, w) :: rest => if k = uid then some w else registryGet uid rest

/-- `data.startTime ? new Date(data.startTime) : new Date()` (a zero client
timestamp is falsy and falls back to the server clock). -/
def jsStartTime (clientStart : Option ℕ) (now : ℕ) : ℕ :=
  match clientStart with
  | some t => if t = 0 then now else t
  | none => now

/-- The reply emitted by the `start_tracking` handler. -/
inductive TrackingReply where
  | trackingError
  | trackingStarted (startTime : ℕ) (initialPosition : List JsVal)
deriving DecidableEq

/-- Result of a `start_tracking` event: the emitted reply, the new
in-memory registry, and the `[lng, lat]`-swapped coordinates of the
`ActiveSession` document created when none existed. -/
structure StartTrackingResult where
  reply : TrackingReply
  registry : List (ℕ × LiveTrackingUser)
  createdSessionCoords : Option (List JsVal)
deriving DecidableEq

/-- The `start_tracking` handler (mapSocketServer.ts lines 92-167).
Validation only checks that `initialPosition` is an array of length
exactly 2 (`none` models an absent or non-array value); element types are
not inspected.  On success the in-memory entry is stored with zeroed
accumulators before the database is consulted, and a persisted session is
created (with coordinate order swapped) only when none is active. -/
def startTracking (uid now : ℕ) (initialPosition : Option (List JsVal))
    (clientStart : Option ℕ) (registry : List (ℕ × LiveTrackingUser))
    (existingSession : Option ActiveSessionDoc) : StartTrackingResult :=
  match initialPosition with
  | none => ⟨TrackingReply.trackingError, registry, none⟩
  | some pos =>
    if pos.length ≠ 2 then ⟨TrackingReply.trackingError, registry, none⟩
    else
      let startTime := jsStartTime clientStart now
      let trackingUser : LiveTrackingUser := ⟨uid, pos, startTime, ⟨0, 0, 0⟩⟩
      let registry2 := registrySet uid trackingUser registry
      let created : Option (List JsVal) :=
        match existingSession with
        | some _ => none
        | none =>
          match pos with
          | [a, b] => some [b, a]
          | _ => none
      ⟨TrackingReply.trackingStarted startTime pos, registry2, created⟩

/-- The claim's validity predicate: an array of exactly two numeric
elements. -/
def isTwoNumeric (pos : Option (List JsVal)) : Prop :=
  ∃ a b : ℚ, pos = some [JsVal.num a, JsVal.num b]

/-! ## routeController.ts: the route synthesizer

The generator's trigonometry (`Math.sin`, `Math.asin`, `Math.atan2`,
`Math.sqrt`, `Math.PI`) and its randomness (`Math.random`) are abstracted
as parameters: `MathOps` carries the numeric primitives and `rnd : ℕ → ℚ`
is the stream of `Math.random()` results (call `k` of an iteration reads a
fixed index).  The structure of every formula is taken verbatim from the
source. -/

structure MathOps where
  sin : ℚ → ℚ
  cos : ℚ → ℚ
  asin : ℚ → ℚ
  atan2 : ℚ → ℚ → ℚ
  sqrt : ℚ → ℚ
  pi : ℚ

/-- A `{lat, lng}` point. -/
structure Point where
  lat : ℚ
  lng : ℚ
deriving DecidableEq, Inhabited

/-- `getDistanceBetweenPoints` (routeController.ts lines 12-27): Haversine
distance in km. -/
def getDistanceBetweenPoints (ops : MathOps) (p1 p2 : Point) : ℚ :=
  let R : ℚ := 6371
  let lat1 := p1.lat * ops.pi / 180
  let lat2 := p2.lat * ops.pi / 180
  let dLat := (p2.lat - p1.lat) * ops.pi / 180
  let dLng := (p2.lng - p1.lng) * ops.pi / 180
  let a := ops.sin (dLat/2) * ops.sin (dLat/2) +
    ops.cos lat1 * ops.cos lat2 * ops.sin (dLng/2) * ops.sin (dLng/2)
  let c := 2 * ops.atan2 (ops.sqrt a) (ops.sqrt (1 - a))
  R * c

/-- The summation loop of `calculateTotalDistance` (lines 30-38). -/
def totalDistanceRaw (ops : MathOps) : List Point → ℚ
  | [] => 0
  | [_] => 0
  | p :: q :: rest => getDistanceBetweenPoints ops p q + totalDistanceRaw ops (q :: rest)

/-- `calculateTotalDistance`: the summed distance, rounded to 2 decimals
(`parseFloat(totalDistance.toFixed(2))`). -/
def calculateTotalDistance (ops : MathOps) (points : List Point) : ℚ :=
  jsToFixed2 (totalDistanceRaw ops points)

/-- The spherical bearing-projection step used by `generateRoutePoints`
(lines 72-90): positions in degrees, intermediate values in radians. -/
def projectPoint (ops : MathOps) (prev : Point) (angle angularDistance : ℚ) :
    Point :=
  let prevLat := prev.lat * ops.pi / 180
  let prevLng := prev.lng * ops.pi / 180
  let newLat := ops.asin (ops.sin prevLat * ops.cos angularDistance +
    ops.cos prevLat * ops.sin angularDistance * ops.cos angle)
  let newLng := prevLng + ops.atan2
    (ops.sin angle * ops.sin angularDistance * ops.cos prevLat)
    (ops.cos angularDistance - ops.sin prevLat * ops.sin newLat)
  ⟨newLat * 180 / ops.pi, newLng * 180 / ops.pi⟩

/-- The intermediate-point loop of `generateRoutePoints` (lines 60-91):
iteration `i` draws a random bearing and a random step length
(`avgStep * (0.5 + random)`) and projects from the previous point. -/
def genIntermediatePoints (ops : MathOps) (rnd : ℕ → ℚ) (avgStep : ℚ) :
    ℕ → ℕ → Point → List Point
  | _, 0, _ => []
  | i, count + 1, prev =>
    let angle := rnd (2 * i) * 2 * ops.pi
    let stepDistance := avgStep * (1/2 + rnd (2 * i + 1))
    let angularDistance := stepDistance / 6371
    let next := projectPoint ops prev angle angularDistance
    next :: genIntermediatePoints ops rnd avgStep (i + 1) count next

/-- `generateRoutePoints` (lines 41-115): start point, `numPoints - 2`
randomized intermediate points, then either the start again (loop) or one
extra point continuing the last direction, scaled by
`avgStep / sqrt(dirLat² + dirLng²) * 0.008`. -/
def generateRoutePoints (ops : MathOps) (rnd : ℕ → ℚ)
    (startLat startLng targetDistance : ℚ) (numPoints : ℕ) (isLoop : Bool) :
    List Point :=
  let start : Point := ⟨startLat, startLng⟩
  let avgStep := targetDistance / ((numPoints : ℚ) - 1)
  let points := start :: genIntermediatePoints ops rnd avgStep 1 (numPoints - 2) start
  if isLoop then points ++ [start]
  else
    match points.getLast?, points.dropLast.getLast? with
    | some lastP, some secondLastP =>
      let dirLat := lastP.lat - secondLastP.lat
      let dirLng := lastP.lng - secondLastP.lng
      let scale := avgStep / ops.sqrt (dirLat * dirLat + dirLng * dirLng) * (8/1000)
      points ++ [⟨lastP.lat + dirLat * scale, lastP.lng + dirLng * scale⟩]
    | _, _ => points

/-- The route payload assembled by `formatRouteResponse` (lines 118-145)
and by `generateRoadRoute`'s response (lines 366-384); the purely
display-oriented `description` string is not modelled. -/
structure RouteResponse where
  title : String
  distance : ℚ
  elevationGain : ℤ
  startPoint : Coord
  endPoint : Coord
  path : List Coord
deriving DecidableEq

/-- `formatRouteResponse`: convert `{lat,lng}` points to `[lng,lat]`
GeoJSON coordinates and package the payload. -/
def formatRouteResponse (points : List Point) (title : String)
    (distance : ℚ) (elevation : ℤ) : RouteResponse :=
  let coordinates := points.map (fun p => (p.lng, p.lat))
  { title := title
    distance := distance
    elevationGain := elevation
    startPoint := coordinates.headI
    endPoint := coordinates.getLastI
    path := coordinates }

/-- `generateShortRoute` (lines 181-193): clamp to 3 km, 5 points, open
path, elevation multiplier 8. -/
def generateShortRoute (ops : MathOps) (rnd : ℕ → ℚ) (lat lng maxDistance : ℚ) :
    RouteResponse :=
  let distance := min maxDistance 3
  let points := generateRoutePoints ops rnd lat lng distance 5 false
  let routeDistance := calculateTotalDistance ops points
  let elevationGain := jsRound (routeDistance * 8)
  formatRouteResponse points "Short Route" routeDistance elevationGain

/-- `generateLongRoute` (lines 196-208): clamp to 10 km, 10 points, open
path, elevation multiplier 12. -/
def generateLongRoute (ops : MathOps) (rnd : ℕ → ℚ) (lat lng maxDistance : ℚ) :
    RouteResponse :=
  let distance := min maxDistance 10
  let points := generateRoutePoints ops rnd lat lng distance 10 false
  let routeDistance := calculateTotalDistance ops points
  let elevationGain := jsRound (routeDistance * 12)
  formatRouteResponse points "Long Route" routeDistance elevationGain

/-- `generateLoopRoute` (lines 211-223): clamp to 8 km, 8 points, closed
path, elevation multiplier 10. -/
def generateLoopRoute (ops : MathOps) (rnd : ℕ → ℚ) (lat lng maxDistance : ℚ) :
    RouteResponse :=
  let distance := min maxDistance 8
  let points := generateRoutePoints ops rnd lat lng distance 8 true
  let routeDistance := calculateTotalDistance ops points
  let elevationGain := jsRound (routeDistance * 10)
  formatRouteResponse points "Loop Route" routeDistance elevationGain

/-- One alternative returned by the road-routing service: a distance in
meters and a GeoJSON coordinate sequence. -/
structure OsrmRoute where
  distance : ℚ
  geometry : List Coord
deriving DecidableEq

/-- The road-routing response body consulted by `generateRoadRoute`. -/
structure OsrmResponse where
  code : String
  routes : List OsrmRoute
deriving DecidableEq

/-- The comparator of `generateRoadRoute`'s `routes.sort` (lines 355-357):
ascending absolute difference between the alternative's distance (in km)
and the target distance.  JavaScript's `Array.prototype.sort` is stable, so
the sort is modelled as a stable merge sort with this ordering. -/
def routeSortLe (targetDistance : ℚ) (a b : OsrmRoute) : Bool :=
  |a.distance / 1000 - targetDistance| ≤ |b.distance / 1000 - targetDistance|

/-- The sorted alternatives; `routes[0]` of the result is the selected one. -/
def selectBestRoute (targetDistance : ℚ) (routes : List OsrmRoute) :
    List OsrmRoute :=
  routes.mergeSort (routeSortLe targetDistance)

/-- The response processing of `generateRoadRoute` (lines 349-384), taking
the remote service's reply as input; the upstream waypoint synthesis only
shapes the request sent to the external service and is not modelled.  A
non-`Ok` code or an empty alternatives list raises the error recovered by
the fallback path. -/
def generateRoadRoute (targetDistance : ℚ) (routeType : String)
    (response : OsrmResponse) : Except String RouteResponse :=
  if response.code ≠ "Ok" ∨ response.routes = [] then
    Except.error "Invalid response from OSRM"
  else
    match selectBestRoute targetDistance response.routes with
    | [] => Except.error "Invalid response from OSRM"
    | bestRoute :: _ =>
      let actualDistance := bestRoute.distance / 1000
      let elevationGain := jsRound (actualDistance * 10)
      let routeCoordinates := bestRoute.geometry
      Except.ok
        { title := routeType.capitalize ++ " Route"
          distance := jsToFixed2 actualDistance
          elevationGain := elevationGain
          startPoint := routeCoordinates.headI
          endPoint := routeCoordinates.getLastI
          path := routeCoordinates }

/-! ## Lemmas about `startSession` -/

lemma resetFirstActive_spec (uid now : ℕ) (loc : Coord) (store : List ActiveSessionDoc) :
    ∀ st2, resetFirstActive uid now loc store = some st2 →
      ∃ i s, store[i]? = some s ∧ s.user = uid ∧ s.isActive = true ∧
        st2 = store.set i (resetSessionDoc s now loc) := by
  induction store with
  | nil => intro st2 h; simp [resetFirstActive] at h
  | cons s rest ih =>
    intro st2 h
    by_cases hs : s.user = uid ∧ s.isActive = true
    · rw [resetFirstActive, if_pos hs] at h
      injection h with h2
      exact ⟨0, s, by simp, hs.1, hs.2, by rw [← h2]; simp⟩
    · rw [resetFirstActive, if_neg hs] at h
      cases hrec : resetFirstActive uid now loc rest with
      | none => rw [hrec] at h; simp at h
      | some rest2 =>
        rw [hrec] at h
        injection h with h2
        obtain ⟨i, t, hget, hu, ha, hset⟩ := ih rest2 hrec
        refine ⟨i + 1, t, by simpa using hget, hu, ha, ?_⟩
        rw [← h2, hset]
        simp

lemma resetFirstActive_isSome (uid now : ℕ) (loc : Coord)
    (store : List ActiveSessionDoc)
    (hactive : ∃ s ∈ store, s.user = uid ∧ s.isActive = true) :
    ∃ st2, resetFirstActive uid now loc store = some st2 := by
  induction store with
  | nil => simp at hactive
  | cons s rest ih =>
    by_cases hs : s.user = uid ∧ s.isActive = true
    · exact ⟨_, by rw [resetFirstActive, if_pos hs]⟩
    · have hrest : ∃ t ∈ rest, t.user = uid ∧ t.isActive = true := by
        obtain ⟨t, ht, hprop⟩ := hactive
        rcases List.mem_cons.mp ht with rfl | htm
        · exact absurd hprop hs
        · exact ⟨t, htm, hprop⟩
      obtain ⟨st2, hst2⟩ := ih hrest
      exact ⟨s :: st2, by rw [resetFirstActive, if_neg hs, hst2]⟩

lemma resetFirstActive_preserves (uid now : ℕ) (loc : Coord)
    (store : List ActiveSessionDoc) :
    ∀ st2, resetFirstActive uid now loc store = some st2 →
      st2.length = store.length ∧ countActive uid st2 = countActive uid store := by
  induction store with
  | nil => intro st2 h; simp [resetFirstActive] at h
  | cons s rest ih =>
    intro st2 h
    by_cases hs : s.user = uid ∧ s.isActive = true
    · rw [resetFirstActive, if_pos hs] at h
      injection h with h2
      subst h2
      constructor
      · simp
      · simp [countActive, List.filter_cons, resetSessionDoc, hs.1, hs.2]
    · rw [resetFirstActive, if_neg hs] at h
      cases hrec : resetFirstActive uid now loc rest with
      | none => rw [hrec] at h; simp at h
      | some rest2 =>
        rw [hrec] at h
        injection h with h2
        subst h2
        obtain ⟨hlen, hcount⟩ := ih rest2 hrec
        constructor
        · simp [hlen]
        · simp [countActive, List.filter_cons, hs] at hcount ⊢
          exact hcount

/-- Claim C4: calling `start` while the user already has an active session
creates no second session.  The first active session is reset in place —
startTime overwritten to now, currentLocation set to the new point, the
three accumulators zeroed, lastUpdated refreshed — the store length is unchanged, and the
user's number of active sessions is unchanged. -/
theorem claim_C4 (uid now : ℕ) (lng lat : ℚ) (store : List ActiveSessionDoc)
    (hbounds : ¬(lat < -90 ∨ 90 < lat ∨ lng < -180 ∨ 180 < lng))
    (hactive : ∃ s ∈ store, s.user = uid ∧ s.isActive = true) :
    ∃ i s, store[i]? = some s ∧ s.user = uid ∧ s.isActive = true ∧
      startSession uid now (some (some [JsVal.num lng, JsVal.num lat])) store =
        (StartResponse.resetOk, store.set i (resetSessionDoc s now (lng, lat))) ∧
      (store.set i (resetSessionDoc s now (lng, lat))).length = store.length ∧
      countActive uid (store.set i (resetSessionDoc s now (lng, lat))) =
        countActive uid store := by
  obtain ⟨st2, hst2⟩ := resetFirstActive_isSome uid now (lng, lat) store hactive
  obtain ⟨i, s, hget, hu, ha, hset⟩ := resetFirstActive_spec uid now (lng, lat) store st2 hst2
  obtain ⟨hlen, hcount⟩ := resetFirstActive_preserves uid now (lng, lat) store st2 hst2
  subst hset
  refine ⟨i, s, hget, hu, ha, ?_, hlen, hcount⟩
  simp only [startSession, if_neg hbounds, hst2]

/-- Witness for claim C4: one stored active session for user 1 is reset. -/
theorem claim_C4_witness :
    ∃ i s,
      ([{ user := 1, startTime := 0, isActive := true, currentLocation := (0, 0),
          currentSpeed := 3, currentDistance := 4, currentDuration := 5,
          currentElevation := none, currentHeartRate := none,
          lastUpdated := 0 }] : List ActiveSessionDoc)[i]? = some s ∧
      s.user = 1 ∧ s.isActive = true ∧
      startSession 1 5 (some (some [JsVal.num 10, JsVal.num 20]))
          [{ user := 1, startTime := 0, isActive := true, currentLocation := (0, 0),
             currentSpeed := 3, currentDistance := 4, currentDuration := 5,
             currentElevation := none, currentHeartRate := none,
             lastUpdated := 0 }] =
        (StartResponse.resetOk,
          [{ user := 1, startTime := 0, isActive := true, currentLocation := (0, 0),
             currentSpeed := 3, currentDistance := 4, currentDuration := 5,
             currentElevation := none, currentHeartRate := none,
             lastUpdated := 0 }].set i (resetSessionDoc s 5 (10, 20))) ∧
      ([{ user := 1, startTime := 0, isActive := true, currentLocation := (0, 0),
          currentSpeed := 3, currentDistance := 4, currentDuration := 5,
          currentElevation := none, currentHeartRate := none,
          lastUpdated := 0 }].set i (resetSessionDoc s 5 (10, 20))).length = 1 ∧
      countActive 1
          ([{ user := 1, startTime := 0, isActive := true, currentLocation := (0, 0),
              currentSpeed := 3, currentDistance := 4, currentDuration := 5,
              currentElevation := none, currentHeartRate := none,
              lastUpdated := 0 }].set i (resetSessionDoc s 5 (10, 20))) =
        countActive 1
          [{ user := 1, startTime := 0, isActive := true, currentLocation := (0, 0),
             currentSpeed := 3, currentDistance := 4, currentDuration := 5,
             currentElevation := none, currentHeartRate := none,
             lastUpdated := 0 }] :=
  claim_C4 1 5 10 20 _ (by norm_num) ⟨_, List.mem_singleton.mpr rfl, rfl, rfl⟩

/-! ## Lemmas about the geometry-repair pipeline -/

lemma chain'_cons_collectDistinctCoords (l : List Coord) (lc : Coord) :
    List.Chain' (· ≠ ·) (lc :: collectDistinctCoords (some lc) l) := by
  induction l generalizing lc with
  | nil => simp [collectDistinctCoords]
  | cons c rest ih =>
    by_cases h : c.1 ≠ lc.1 ∨ c.2 ≠ lc.2
    · have hne : lc ≠ c := by
        intro he
        rcases h with h1 | h2
        · exact h1 (by rw [he])
        · exact h2 (by rw [he])
      simpa [collectDistinctCoords, h] using List.Chain'.cons hne (ih c)
    · simpa [collectDistinctCoords, h] using ih lc

lemma chain'_collectDistinctCoords_none (l : List Coord) :
    List.Chain' (· ≠ ·) (collectDistinctCoords none l) := by
  cases l with
  | nil => simp [collectDistinctCoords]
  | cons c rest =>
    simpa [collectDistinctCoords] using chain'_cons_collectDistinctCoords rest c

lemma collectDistinctCoords_none_ne_nil (l : List Coord) (h : l ≠ []) :
    collectDistinctCoords none l ≠ [] := by
  cases l with
  | nil => exact absurd rfl h
  | cons c rest => simp [collectDistinctCoords]

lemma initialRouteCoordinates_length (route : Option (List Coord))
    (locationHistory : Option (List Coord)) (currentLocation : Coord) :
    2 ≤ (initialRouteCoordinates route locationHistory currentLocation).length := by
  unfold initialRouteCoordinates
  rcases route with _ | rc
  · rcases locationHistory with _ | h
    · simp
    · by_cases hl : 2 ≤ h.length <;> simp [hl]
  · by_cases hr : 2 ≤ rc.length
    · simp [hr]
    · rcases locationHistory with _ | h
      · simp [hr]
      · by_cases hl : 2 ≤ h.length <;> simp [hr, hl]

lemma ensureDistinctCoords_spec (l : List Coord) (hl : 2 ≤ l.length) :
    2 ≤ (ensureDistinctCoords l).length ∧
      List.Chain' (· ≠ ·) (ensureDistinctCoords l) := by
  have hguard : 1 < l.length := hl
  have hne : l ≠ [] := by
    intro he; rw [he] at hl; simp at hl
  have hdne := collectDistinctCoords_none_ne_nil l hne
  have hchain := chain'_collectDistinctCoords_none l
  unfold ensureDistinctCoords
  rw [if_pos hguard]
  by_cases hshort : (collectDistinctCoords none l).length < 2
  · rw [if_pos hshort]
    have h1 : (collectDistinctCoords none l).length = 1 := by
      have := List.length_pos.mpr hdne
      omega
    obtain ⟨p, hp⟩ := List.length_eq_one.mp h1
    rw [hp]
    refine ⟨by simp, ?_⟩
    simp only [List.headI_cons, List.cons_append, List.nil_append]
    refine List.chain'_pair.mpr ?_
    intro he
    have : p.1 = p.1 + 1/10000 := congrArg Prod.fst he
    linarith
  · rw [if_neg hshort]
    exact ⟨by omega, hchain⟩

/-- Claim C3: for every input to `stop` (any combination of client route,
location history, and current location) the produced route geometry has at
least two coordinates and no two consecutive coordinates are identical. -/
theorem claim_C3 (route : Option (List Coord))
    (locationHistory : Option (List Coord)) (currentLocation : Coord) :
    2 ≤ (stopRouteCoordinates route locationHistory currentLocation).length ∧
      List.Chain' (· ≠ ·)
        (stopRouteCoordinates route locationHistory currentLocation) :=
  ensureDistinctCoords_spec _
    (initialRouteCoordinates_length route locationHistory currentLocation)

/-- Claim C2: in `stop`'s distance normalization a positive client
`totalDistance` below 100 is multiplied by 1000 while a value of 100 or more
is stored unchanged; in particular 99 becomes 99000 and 100 stays 100. -/
theorem claim_C2 :
    (∀ td cd : ℚ, 0 < td → td < 100 → finalDistanceOf (some td) cd = td * 1000) ∧
    (∀ td cd : ℚ, 100 ≤ td → finalDistanceOf (some td) cd = td) ∧
    (∀ cd : ℚ, finalDistanceOf (some 99) cd = 99000) ∧
    (∀ cd : ℚ, finalDistanceOf (some 100) cd = 100) := by
  refine ⟨?_, ?_, ?_, ?_⟩
  · intro td cd h0 h100
    simp only [finalDistanceOf, if_pos h0]
    rw [if_pos ⟨h0, h100⟩]
  · intro td cd h100
    have h0 : (0 : ℚ) < td := lt_of_lt_of_le (by norm_num) h100
    simp only [finalDistanceOf, if_pos h0]
    rw [if_neg (by rintro ⟨-, hlt⟩; linarith)]
  · intro cd
    norm_num [finalDistanceOf]
  · intro cd
    norm_num [finalDistanceOf]

/-- Witness for claim C2 at concrete inputs. -/
theorem claim_C2_witness :
    finalDistanceOf (some 50) 0 = 50000 ∧ finalDistanceOf (some 250) 0 = 250 := by
  constructor
  · have := claim_C2.1 50 0 (by norm_num) (by norm_num)
    linarith
  · exact claim_C2.2.1 250 0 (by norm_num)

/-- Claim C10: the km-to-m heuristic in `stop` is applied to the result of
the whole fallback chain, so a session-accumulated `currentDistance` below
100 is also multiplied by 1000 when the client value is absent or
non-positive, and the `0.001` placeholder is stored as 1. -/
theorem claim_C10 :
    (∀ cd : ℚ, 0 < cd → cd < 100 → finalDistanceOf none cd = cd * 1000) ∧
    (∀ td cd : ℚ, td ≤ 0 → 0 < cd → cd < 100 →
      finalDistanceOf (some td) cd = cd * 1000) ∧
    (∀ cd : ℚ, cd ≤ 0 → finalDistanceOf none cd = 1) ∧
    (∀ td cd : ℚ, td ≤ 0 → cd ≤ 0 → finalDistanceOf (some td) cd = 1) := by
  refine ⟨?_, ?_, ?_, ?_⟩
  · intro cd h0 h100
    simp only [finalDistanceOf, if_pos h0]
    rw [if_pos ⟨h0, h100⟩]
  · intro td cd htd h0 h100
    simp only [finalDistanceOf, if_neg (not_lt.mpr htd), if_pos h0]
    rw [if_pos ⟨h0, h100⟩]
  · intro cd hcd
    simp only [finalDistanceOf, if_neg (not_lt.mpr hcd)]
    norm_num
  · intro td cd htd hcd
    simp only [finalDistanceOf, if_neg (not_lt.mpr htd), if_neg (not_lt.mpr hcd)]
    norm_num

/-- Witness for claim C10 at concrete inputs. -/
theorem claim_C10_witness :
    finalDistanceOf none 50 = 50000 ∧ finalDistanceOf (some 0) 0 = 1 := by
  constructor
  · have := claim_C10.1 50 (by norm_num) (by norm_num)
    linarith
  · exact claim_C10.2.2.2 0 0 le_rfl le_rfl

/-- Claim C6 (code bug): the determinism example holds (age 30 gives 630
calories), but the age adjustment does not: the source's
`if (age > 50) met *= 0.95; else if (age > 65) met *= 0.9;` makes the 10%
branch unreachable, so a 70-year-old gets the 5% reduction
(round(9 × 0.95 × 70 × 1) = 599) instead of the documented 10% reduction
(round(9 × 0.9 × 70 × 1) = 567). -/
theorem claim_C6 :
    calculateCalories 3600 ⟨some 70, some 170, some 30⟩ 10000 "run" = 630 ∧
    calculateCalories 3600 ⟨some 70, some 170, some 70⟩ 10000 "run" = 599 ∧
    jsRound (9 * (9/10) * 70 * 1) = 567 ∧ (599 : ℤ) ≠ 567 := by
  refine ⟨?_, ?_, ?_, by decide⟩
  · norm_num [calculateCalories, jsNumOr, jsRound]
  · norm_num [calculateCalories, jsNumOr, jsRound]
  · norm_num [jsRound]

/-! ## Lemmas about the challenge updater -/

lemma map_completedDate_set :
    ∀ (l : List ParticipantEntry) (idx : ℕ) (p0 p2 : ParticipantEntry),
      l[idx]? = some p0 → p2.completedDate = p0.completedDate →
      (l.set idx p2).map (fun p => p.completedDate) =
        l.map (fun p => p.completedDate)
  | [], idx, p0, p2, hget, _ => by simp at hget
  | q :: rest, 0, p0, p2, hget, hdate => by
    simp only [List.getElem?_cons_zero, Option.some_inj] at hget
    subst hget
    simp [hdate]
  | q :: rest, idx + 1, p0, p2, hget, hdate => by
    simp only [List.getElem?_cons_succ] at hget
    simp [map_completedDate_set rest idx p0 p2 hget hdate]

lemma applyChallengeUpdate_completedDate (userId : ℕ) (activity : ActivityDoc)
    (now : ℕ) (challenge : ChallengeDoc) :
    (applyChallengeUpdate userId activity now challenge).participants.map
        (fun p => p.completedDate) =
      challenge.participants.map (fun p => p.completedDate) := by
  unfold applyChallengeUpdate
  cases hidx : challenge.participants.findIdx? (fun p => p.user = userId) with
  | none => rfl
  | some idx =>
    simp only
    cases hget : challenge.participants[idx]? with
    | none => rfl
    | some p0 =>
      simp only
      rw [if_neg (by rintro ⟨h1, h2⟩; rw [h1] at h2; exact Bool.true_eq_false.mp h2)]
      exact map_completedDate_set _ idx p0 _ hget rfl

/-- Claim C1 (code bug): the completed flag is latched, but `completedDate`
is never stamped.  The first conjunct shows no `apply` ever changes any
participant's `completedDate` (the aliased `participant.completed` read
makes the stamping condition `completed && !participant.completed`
unsatisfiable); the second evaluates a first-crossing apply: progress goes
0 → 10 ≥ goal 5 and `completed` becomes true, yet `completedDate` stays
`none` instead of being stamped with the crossing time 99. -/
theorem claim_C1 :
    (∀ (userId : ℕ) (activity : ActivityDoc) (now : ℕ)
        (challenge : ChallengeDoc),
      (applyChallengeUpdate userId activity now challenge).participants.map
          (fun p => p.completedDate) =
        challenge.participants.map (fun p => p.completedDate)) ∧
    applyChallengeUpdate 7
        { user := 7, atype := "run", duration := 3600, distance := 10000,
          elevationGain := 0, averageSpeed := 0, maxSpeed := 0,
          averagePace := 0, calories := 0, steps := 0, route := [],
          simulated := false } 99
        { ctype := "distance", goal := 5,
          participants := [{ user := 7, progress := 0, completed := false,
                             completedDate := none }] } =
      { ctype := "distance", goal := 5,
        participants := [{ user := 7, progress := 10, completed := true,
                           completedDate := none }] } := by
  refine ⟨applyChallengeUpdate_completedDate, ?_⟩
  simp only [applyChallengeUpdate, progressIncrement]
  norm_num [List.findIdx?]

lemma updateUserChallengeProgress_fst (userId : ℕ) (activity : ActivityDoc)
    (now : ℕ) (findResult : Except String (List ChallengeDoc))
    (saveResult : ChallengeDoc → Except String Unit) :
    (updateUserChallengeProgress userId activity now findResult
        saveResult).1 = Except.ok () := by
  cases findResult <;> rfl

lemma processChallenges_eq_map (userId : ℕ) (activity : ActivityDoc)
    (now : ℕ) (saveResult : ChallengeDoc → Except String Unit)
    (challenges : List ChallengeDoc) :
    processChallenges userId activity now saveResult challenges =
      challenges.map (challengeOutcomeOf userId activity now saveResult) := by
  induction challenges with
  | nil => rfl
  | cons c rest ih => simp [processChallenges, ih]

lemma challengeOutcomeOf_skipped_iff (userId : ℕ) (activity : ActivityDoc)
    (now : ℕ) (saveResult : ChallengeDoc → Except String Unit)
    (c : ChallengeDoc) :
    challengeOutcomeOf userId activity now saveResult c =
        ChallengeOutcome.skipped ↔
      c.participants.findIdx? (fun p => p.user = userId) = none := by
  unfold challengeOutcomeOf
  cases hidx : c.participants.findIdx? (fun p => p.user = userId) with
  | none => simp
  | some idx =>
    simp only
    cases saveResult (applyChallengeUpdate userId activity now c) <;> simp

/-- Claim C8: when the Activity is created (and the session transition
persists), no failure of the challenge-progress machinery is propagated:
`stop` reports success for every outcome of the challenge find and of each
per-challenge save; the updater itself always resolves; each found
challenge's outcome is a function of that challenge alone (so one failed
save cannot prevent the others from being attempted); and a challenge is
skipped only when the user has no participant entry in it. -/
theorem claim_C8 (user : UserProfile) (uid : ℕ) (req : StopRequest)
    (s : ActiveSessionDoc) (userTotalUpdate : Except String Unit)
    (challengeFind : Except String (List ChallengeDoc))
    (challengeSave : ChallengeDoc → Except String Unit) (now : ℕ) :
    stopSession user uid req (some s) (Except.ok ()) userTotalUpdate
        (Except.ok ()) challengeFind challengeSave now =
      StopResponse.completed (buildActivity user uid s req) ∧
    (updateUserChallengeProgress uid (buildActivity user uid s req) now
        challengeFind challengeSave).1 = Except.ok () ∧
    (∀ challenges, challengeFind = Except.ok challenges →
      (updateUserChallengeProgress uid (buildActivity user uid s req) now
          challengeFind challengeSave).2 =
        challenges.map (challengeOutcomeOf uid (buildActivity user uid s req)
          now challengeSave)) ∧
    (∀ c : ChallengeDoc,
      challengeOutcomeOf uid (buildActivity user uid s req) now challengeSave
          c = ChallengeOutcome.skipped ↔
        c.participants.findIdx? (fun p => p.user = uid) = none) := by
  refine ⟨?_, updateUserChallengeProgress_fst _ _ _ _ _, ?_, ?_⟩
  · simp only [stopSession]
    rw [updateUserChallengeProgress_fst]
  · intro challenges hfind
    subst hfind
    simp [updateUserChallengeProgress, processChallenges_eq_map]
  · intro c
    exact challengeOutcomeOf_skipped_iff _ _ _ _ c

/-- Witness for claim C8: a concrete stop with one challenge whose save
fails still completes successfully. -/
theorem claim_C8_witness :
    stopSession ⟨some 70, some 170, some 30⟩ 1
        ⟨none, some 5000, some 1800, none, none, none, none, none, false⟩
        (some { user := 1, startTime := 0, isActive := true,
                currentLocation := (10, 20), currentSpeed := 2,
                currentDistance := 4000, currentDuration := 1700,
                currentElevation := none, currentHeartRate := none,
                lastUpdated := 0 })
        (Except.ok ()) (Except.ok ()) (Except.ok ())
        (Except.ok [{ ctype := "distance", goal := 5,
                      participants := [{ user := 1, progress := 0,
                                         completed := false,
                                         completedDate := none }] }])
        (fun _ => Except.error "save failed") 50 =
      StopResponse.completed
        (buildActivity ⟨some 70, some 170, some 30⟩ 1
          { user := 1, startTime := 0, isActive := true,
            currentLocation := (10, 20), currentSpeed := 2,
            currentDistance := 4000, currentDuration := 1700,
            currentElevation := none, currentHeartRate := none,
            lastUpdated := 0 }
          ⟨none, some 5000, some 1800, none, none, none, none, none, false⟩) :=
  (claim_C8 ⟨some 70, some 170, some 30⟩ 1
    ⟨none, some 5000, some 1800, none, none, none, none, none, false⟩
    { user := 1, startTime := 0, isActive := true,
      currentLocation := (10, 20), currentSpeed := 2,
      currentDistance := 4000, currentDuration := 1700,
      currentElevation := none, currentHeartRate := none, lastUpdated := 0 }
    (Except.ok ())
    (Except.ok [{ ctype := "distance", goal := 5,
                  participants := [{ user := 1, progress := 0,
                                     completed := false,
                                     completedDate := none }] }])
    (fun _ => Except.error "save failed") 50).1

/-! ## Lemmas about `start_tracking` -/

lemma registryGet_registrySet_self (uid : ℕ) (v : LiveTrackingUser) :
    ∀ r, registryGet uid (registrySet uid v r) = some v
  | [] => by simp [registrySet, registryGet]
  | (k, w) :: rest => by
    by_cases hk : k = uid
    · simp [registrySet, registryGet, hk]
    · simp [registrySet, registryGet, hk,
        registryGet_registrySet_self uid v rest]

/-- Claim C9 counterexample: `start_tracking` with a 2-element array of
non-numeric values — not an array of two numeric elements — is accepted:
the reply is not a tracking error and an in-memory entry is registered,
contradicting the claim that such input gets an error and no entry. -/
theorem claim_C9_counterexample :
    ¬ isTwoNumeric (some [JsVal.nonNum, JsVal.nonNum]) ∧
    (startTracking 1 100 (some [JsVal.nonNum, JsVal.nonNum]) none []
        none).reply =
      TrackingReply.trackingStarted 100 [JsVal.nonNum, JsVal.nonNum] ∧
    registryGet 1
        (startTracking 1 100 (some [JsVal.nonNum, JsVal.nonNum]) none []
          none).registry =
      some ⟨1, [JsVal.nonNum, JsVal.nonNum], 100, ⟨0, 0, 0⟩⟩ := by
  refine ⟨?_, rfl, rfl⟩
  rintro ⟨a, b, h⟩
  simp at h

/-- Claim C9 (amended): the handler validates only that `initialPosition`
is an array of exactly two elements (numeric types are not checked).  An
absent/non-array or wrong-length position gets a tracking error and leaves
the registry unchanged; every 2-element array registers an entry whose
distance, duration and speed accumulators are all zero. -/
theorem claim_C9 :
    (∀ (uid now : ℕ) (clientStart : Option ℕ)
        (registry : List (ℕ × LiveTrackingUser))
        (existingSession : Option ActiveSessionDoc),
      (startTracking uid now none clientStart registry
          existingSession).reply = TrackingReply.trackingError ∧
      (startTracking uid now none clientStart registry
          existingSession).registry = registry) ∧
    (∀ (uid now : ℕ) (pos : List JsVal) (clientStart : Option ℕ)
        (registry : List (ℕ × LiveTrackingUser))
        (existingSession : Option ActiveSessionDoc),
      pos.length ≠ 2 →
      (startTracking uid now (some pos) clientStart registry
          existingSession).reply = TrackingReply.trackingError ∧
      (startTracking uid now (some pos) clientStart registry
          existingSession).registry = registry) ∧
    (∀ (uid now : ℕ) (pos : List JsVal) (clientStart : Option ℕ)
        (registry : List (ℕ × LiveTrackingUser))
        (existingSession : Option ActiveSessionDoc),
      pos.length = 2 →
      registryGet uid
          (startTracking uid now (some pos) clientStart registry
            existingSession).registry =
        some ⟨uid, pos, jsStartTime clientStart now, ⟨0, 0, 0⟩⟩) := by
  refine ⟨fun _ _ _ _ _ => ⟨rfl, rfl⟩, ?_, ?_⟩
  · intro uid now pos clientStart registry existingSession hlen
    simp [startTracking, hlen]
  · intro uid now pos clientStart registry existingSession hlen
    simp only [startTracking, hlen, ne_eq, not_true_eq_false, if_false,
      reduceIte]
    exact registryGet_registrySet_self uid _ registry

/-- Witness for claim C9 at concrete inputs: a 3-element position is
rejected without touching the registry, and a numeric 2-element position
registers a zeroed entry. -/
theorem claim_C9_witness :
    ((startTracking 2 100 (some [JsVal.num 1, JsVal.num 2, JsVal.num 3])
        none [] none).reply = TrackingReply.trackingError ∧
      (startTracking 2 100 (some [JsVal.num 1, JsVal.num 2, JsVal.num 3])
        none [] none).registry = []) ∧
    registryGet 2
        (startTracking 2 100 (some [JsVal.num 1, JsVal.num 2]) (some 40) []
          none).registry =
      some ⟨2, [JsVal.num 1, JsVal.num 2], jsStartTime (some 40) 100,
        ⟨0, 0, 0⟩⟩ :=
  ⟨claim_C9.2.1 2 100 [JsVal.num 1, JsVal.num 2, JsVal.num 3] none [] none
      (by decide),
    claim_C9.2.2 2 100 [JsVal.num 1, JsVal.num 2] (some 40) [] none rfl⟩

/-! ## Lemmas about road-route selection -/

lemma routeSortLe_trans (t : ℚ) : ∀ a b c : OsrmRoute,
    routeSortLe t a b → routeSortLe t b c → routeSortLe t a c := by
  intro a b c hab hbc
  simp only [routeSortLe, decide_eq_true_eq] at hab hbc ⊢
  exact le_trans hab hbc

lemma routeSortLe_total (t : ℚ) : ∀ a b : OsrmRoute,
    routeSortLe t a b || routeSortLe t b a := by
  intro a b
  simp only [routeSortLe, Bool.or_eq_true, decide_eq_true_eq]
  exact le_total _ _

lemma selectBestRoute_head_min (t : ℚ) (routes : List OsrmRoute)
    (best : OsrmRoute) (rest : List OsrmRoute)
    (h : selectBestRoute t routes = best :: rest) :
    best ∈ routes ∧ ∀ r ∈ routes,
      |best.distance / 1000 - t| ≤ |r.distance / 1000 - t| := by
  have hmem : best ∈ routes := by
    have : best ∈ selectBestRoute t routes := by rw [h]; exact List.mem_cons_self _ _
    simpa [selectBestRoute] using this
  refine ⟨hmem, ?_⟩
  have hsorted := List.sorted_mergeSort
    (routeSortLe_trans t) (routeSortLe_total t) routes
  rw [show routes.mergeSort (routeSortLe t) = best :: rest from h] at hsorted
  intro r hr
  have hr2 : r ∈ best :: rest := by
    rw [← h]
    simpa [selectBestRoute] using hr
  rcases List.mem_cons.mp hr2 with rfl | hr3
  · exact le_refl _
  · have := List.rel_of_pairwise_cons hsorted hr3
    simpa [routeSortLe, decide_eq_true_eq] using this

/-- Claim C7: the road-route generator picks the alternative whose reported
distance is closest (in absolute difference of kilometers) to the target.
Conjuncts: the head of the sorted list is a minimizer; the stable sort
keeps an earlier alternative ahead of any no-closer later one (first-wins
tie-break); for distances [4.2, 5.0, 4.9] km and target 5 the 5.0 km
alternative is selected; and for the tie [4.8, 5.2] at target 5 the first
alternative wins. -/
theorem claim_C7 :
    (∀ (t : ℚ) (routes : List OsrmRoute) (best : OsrmRoute)
        (rest : List OsrmRoute),
      selectBestRoute t routes = best :: rest →
      best ∈ routes ∧ ∀ r ∈ routes,
        |best.distance / 1000 - t| ≤ |r.distance / 1000 - t|) ∧
    (∀ (t : ℚ) (a b : OsrmRoute) (l : List OsrmRoute),
      routeSortLe t a b = true → List.Sublist [a, b] l →
      List.Sublist [a, b] (selectBestRoute t l)) ∧
    (selectBestRoute 5 [⟨4200, []⟩, ⟨5000, []⟩, ⟨4900, []⟩]).head? =
      some ⟨5000, []⟩ ∧
    (selectBestRoute 5 [⟨4800, []⟩, ⟨5200, []⟩]).head? = some ⟨4800, []⟩ := by
  refine ⟨selectBestRoute_head_min, ?_, ?_, ?_⟩
  · intro t a b l hab hsub
    exact List.pair_sublist_mergeSort (routeSortLe_trans t)
      (routeSortLe_total t) hab hsub
  · have hlen : (selectBestRoute 5 [⟨4200, []⟩, ⟨5000, []⟩, ⟨4900, []⟩]).length = 3 := by
      simp [selectBestRoute]
    rcases hsel : selectBestRoute 5 [⟨4200, []⟩, ⟨5000, []⟩, ⟨4900, []⟩] with
      _ | ⟨best, rest⟩
    · rw [hsel] at hlen; simp at hlen
    · obtain ⟨hmem, hmin⟩ := selectBestRoute_head_min 5 _ best rest hsel
      have h50 := hmin ⟨5000, []⟩ (by simp)
      have e50 : |(5000 : ℚ) / 1000 - 5| = 0 := by
        rw [show (5000 : ℚ) / 1000 - 5 = 0 from by norm_num, abs_zero]
      have hbest : best = ⟨5000, []⟩ := by
        simp only [List.mem_cons, List.not_mem_nil, or_false] at hmem
        rcases hmem with rfl | rfl | rfl
        · exfalso
          rw [e50, show |(4200 : ℚ) / 1000 - 5| = 4/5 from by
            rw [show (4200 : ℚ) / 1000 - 5 = -(4/5) from by norm_num,
              abs_neg, abs_of_nonneg (by norm_num)]] at h50
          linarith
        · rfl
        · exfalso
          rw [e50, show |(4900 : ℚ) / 1000 - 5| = 1/10 from by
            rw [show (4900 : ℚ) / 1000 - 5 = -(1/10) from by norm_num,
              abs_neg, abs_of_nonneg (by norm_num)]] at h50
          linarith
      simp [hbest]
  · have hab : routeSortLe 5 ⟨4800, []⟩ ⟨5200, []⟩ = true := by
      simp only [routeSortLe, decide_eq_true_eq]
      rw [show (4800 : ℚ) / 1000 - 5 = -(1/5) from by norm_num,
        show (5200 : ℚ) / 1000 - 5 = 1/5 from by norm_num, abs_neg]
    have hsub : List.Sublist [(⟨4800, []⟩ : OsrmRoute), ⟨5200, []⟩]
        [⟨4800, []⟩, ⟨5200, []⟩] := List.Sublist.refl _
    have hp := List.pair_sublist_mergeSort (routeSortLe_trans 5)
      (routeSortLe_total 5) hab hsub
    have heq : selectBestRoute 5 [⟨4800, []⟩, ⟨5200, []⟩] =
        [⟨4800, []⟩, ⟨5200, []⟩] := by
      refine (List.Sublist.eq_of_length hp ?_).symm
      simp [selectBestRoute]
    rw [heq]
    rfl

/-- Witness for claim C7: the minimizer property applied to a concrete
singleton alternatives list. -/
theorem claim_C7_witness :
    (⟨7000, []⟩ : OsrmRoute) ∈ [(⟨7000, []⟩ : OsrmRoute)] ∧
    ∀ r ∈ [(⟨7000, []⟩ : OsrmRoute)],
      |(7000 : ℚ) / 1000 - 7| ≤ |r.distance / 1000 - 7| :=
  claim_C7.1 7 [⟨7000, []⟩] ⟨7000, []⟩ []
    (by simp [selectBestRoute, List.mergeSort_singleton])

/-! ## Lemmas about the elevation-gain estimates -/

/-- A degenerate but well-typed instantiation of the numeric primitives,
used to evaluate the fallback generators on concrete input. -/
def constOps : MathOps :=
  { sin := fun _ => 0
    cos := fun _ => 0
    asin := fun _ => 0
    atan2 := fun _ _ => 1
    sqrt := fun _ => 1
    pi := 0 }

lemma projectPoint_constOps (prev : Point) (angle δ : ℚ) :
    projectPoint constOps prev angle δ = ⟨0, 0⟩ := by
  simp [projectPoint, constOps]

lemma genIntermediatePoints_constOps (rnd : ℕ → ℚ) (avg : ℚ) :
    ∀ (count i : ℕ) (prev : Point),
      genIntermediatePoints constOps rnd avg i count prev =
        List.replicate count ⟨0, 0⟩ := by
  intro count
  induction count with
  | zero => intro i prev; rfl
  | succ n ih =>
    intro i prev
    simp [genIntermediatePoints, projectPoint_constOps, ih, List.replicate_succ]

lemma getDistanceBetweenPoints_constOps (p q : Point) :
    getDistanceBetweenPoints constOps p q = 12742 := by
  norm_num [getDistanceBetweenPoints, constOps]

lemma totalDistanceRaw_constOps :
    ∀ (l : List Point) (p : Point),
      totalDistanceRaw constOps (p :: l) = 12742 * l.length := by
  intro l
  induction l with
  | nil => intro p; simp [totalDistanceRaw]
  | cons q rest ih =>
    intro p
    rw [totalDistanceRaw, getDistanceBetweenPoints_constOps, ih q]
    simp only [List.length_cons]
    push_cast
    ring

/-- Claim C5 counterexample: with concrete (degenerate) numeric primitives
and a constant random stream, a generated loop route has a positive
distance and its elevation estimate uses multiplier 10,
not the claimed 12: elevationGain = round(89194 × 10) = 891940 while
round(distance × 12) = 1070328. -/
theorem claim_C5_counterexample :
    (generateLoopRoute constOps (fun _ => 0) 0 0 8).elevationGain ≠
      jsRound ((generateLoopRoute constOps (fun _ => 0) 0 0 8).distance * 12) := by
  have hpts : generateRoutePoints constOps (fun _ => 0) 0 0 (min (8 : ℚ) 8) 8 true =
      (⟨0, 0⟩ : Point) :: (List.replicate 6 ⟨0, 0⟩ ++ [⟨0, 0⟩]) := by
    simp [generateRoutePoints, genIntermediatePoints_constOps]
  have htotal : totalDistanceRaw constOps
      ((⟨0, 0⟩ : Point) :: (List.replicate 6 ⟨0, 0⟩ ++ [⟨0, 0⟩])) = 89194 := by
    rw [totalDistanceRaw_constOps]
    simp
    norm_num
  have hdist : calculateTotalDistance constOps
      ((⟨0, 0⟩ : Point) :: (List.replicate 6 ⟨0, 0⟩ ++ [⟨0, 0⟩])) = 89194 := by
    rw [calculateTotalDistance, htotal]
    norm_num [jsToFixed2, jsRound]
  simp only [generateLoopRoute, hpts, hdist, formatRouteResponse]
  norm_num [jsRound]

/-- Claim C5 (amended): the elevation-gain estimate is the computed
distance times a fixed per-shape multiplier — 8 for short, 12 for long and
10 for loop on the fallback path (not 8/10/12 in that shape order), and a
flat 10 on the road-derived path, where it multiplies the raw selected
distance before its 2-decimal rounding. -/
theorem claim_C5 :
    (∀ (ops : MathOps) (rnd : ℕ → ℚ) (lat lng maxDistance : ℚ),
      (generateShortRoute ops rnd lat lng maxDistance).elevationGain =
        jsRound ((generateShortRoute ops rnd lat lng maxDistance).distance * 8)) ∧
    (∀ (ops : MathOps) (rnd : ℕ → ℚ) (lat lng maxDistance : ℚ),
      (generateLongRoute ops rnd lat lng maxDistance).elevationGain =
        jsRound ((generateLongRoute ops rnd lat lng maxDistance).distance * 12)) ∧
    (∀ (ops : MathOps) (rnd : ℕ → ℚ) (lat lng maxDistance : ℚ),
      (generateLoopRoute ops rnd lat lng maxDistance).elevationGain =
        jsRound ((generateLoopRoute ops rnd lat lng maxDistance).distance * 10)) ∧
    (∀ (t : ℚ) (routeType : String) (resp : OsrmResponse) (r : RouteResponse),
      generateRoadRoute t routeType resp = Except.ok r →
      ∃ best ∈ resp.routes,
        r.elevationGain = jsRound (best.distance / 1000 * 10) ∧
        r.distance = jsToFixed2 (best.distance / 1000)) := by
  refine ⟨fun _ _ _ _ _ => rfl, fun _ _ _ _ _ => rfl, fun _ _ _ _ _ => rfl, ?_⟩
  intro t routeType resp r h
  unfold generateRoadRoute at h
  by_cases hc : resp.code ≠ "Ok" ∨ resp.routes = []
  · rw [if_pos hc] at h
    exact absurd h (by simp)
  · rw [if_neg hc] at h
    rcases hsel : selectBestRoute t resp.routes with _ | ⟨best, rest⟩
    · rw [hsel] at h
      exact absurd h (by simp)
    · rw [hsel] at h
      simp only [Except.ok.injEq] at h
      subst h
      refine ⟨best, ?_, rfl, rfl⟩
      have hm : best ∈ selectBestRoute t resp.routes := by
        rw [hsel]; exact List.mem_cons_self _ _
      simpa [selectBestRoute] using hm

/-- Witness for claim C5's road conjunct at a concrete one-alternative
response. -/
theorem claim_C5_witness :
    ∃ best ∈ ([⟨5000, [(0, 0), (1, 1)]⟩] : List OsrmRoute),
      (⟨"loop".capitalize ++ " Route", jsToFixed2 (5000 / 1000),
        jsRound (5000 / 1000 * 10), (0, 0), (1, 1),
        [(0, 0), (1, 1)]⟩ : RouteResponse).elevationGain =
        jsRound (best.distance / 1000 * 10) ∧
      (⟨"loop".capitalize ++ " Route", jsToFixed2 (5000 / 1000),
        jsRound (5000 / 1000 * 10), (0, 0), (1, 1),
        [(0, 0), (1, 1)]⟩ : RouteResponse).distance =
        jsToFixed2 (best.distance / 1000) :=
  claim_C5.2.2.2 5 "loop" ⟨"Ok", [⟨5000, [(0, 0), (1, 1)]⟩]⟩
    ⟨"loop".capitalize ++ " Route", jsToFixed2 (5000 / 1000),
      jsRound (5000 / 1000 * 10), (0, 0), (1, 1), [(0, 0), (1, 1)]⟩
    (by simp [generateRoadRoute, selectBestRoute, List.getLastI])

end Starvangaba
